import Mathlib

/-!
Verification development for the `VCFReader` class of
`variantworks/io/vcfio.py`.  The Python methods are shallowly embedded as
executable Lean functions over explicit data: zygosity classification
(`_detect_zygosity`, the genotype fixup `fix_gt`), header arity resolution
(`_get_normalized_count`), header type coercion (`_get_header_type_lambda`),
multi-allelic decomposition into a columnar table (`_create_df`), the
round-robin chunk assignment of `_parse_vcf_cyvcf`, the schema-resolution
loop of `_parallel_parse_vcf`, the INFO-map rebuild of `__getitem__`, and
the `df` accessor.  Python `None` is `Option.none`, raised exceptions are
`Except.error`, and machine integers are unbounded `Int`/`Nat` exactly as
Python's are.
-/

/-- Python scalar values that flow through the reader.  Floats are modelled
on their integral fragment (`PyVal.vfloat n` stands for the float of integer
value `n`); no claim depends on non-integral float arithmetic. -/
inductive PyVal : Type
  | vstr (s : String)
  | vint (n : Int)
  | vbool (b : Bool)
  | vfloat (n : Int)
deriving DecidableEq

/-- Nullable cell of the columnar table (Python `None` is `none`). -/
abbrev Cell := Option PyVal

/-- Zygosity enumeration (`variantworks.types.VariantZygosity`). -/
inductive VariantZygosity : Type
  | NONE
  | NO_VARIANT
  | HOMOZYGOUS
  | HETEROZYGOUS
deriving DecidableEq

/-- Modelled from the spec: the integer value of each zygosity enum member
(`variantworks/types.py` is not under `src/`); section 8 of the spec pins
`HETEROZYGOUS` to 1, the other values are only required to be distinct. -/
def zygosity_int : VariantZygosity → Int
  | .NONE => -1
  | .NO_VARIANT => 0
  | .HETEROZYGOUS => 1
  | .HOMOZYGOUS => 2

/-- Variant type enumeration (`variantworks.types.VariantType`). -/
inductive VariantType : Type
  | SNP
  | INSERTION
  | DELETION
deriving DecidableEq

/-- Modelled from the spec: the integer value of each variant-type enum
member (`variantworks/types.py` is not under `src/`); the spec only lists
the members, so the values are chosen in listing order. -/
def variant_type_int : VariantType → Int
  | .SNP => 0
  | .INSERTION => 1
  | .DELETION => 2

/-- Embedding of `VCFReader._detect_variant_type` (vcfio.py lines 177-193):
compare reference and alternate lengths. -/
def detect_variant_type (ref alt : String) : VariantType :=
  if ref.length = alt.length then .SNP
  else if ref.length < alt.length then .INSERTION
  else .DELETION

/-- Embedding of `VCFReader._detect_zygosity` (vcfio.py lines 195-219).
The reader's `self._is_fp` flag is passed explicitly. -/
def detect_zygosity (is_fp : Bool) (g0 g1 : Int) : VariantZygosity :=
  if is_fp then .NO_VARIANT
  else if g0 = -1 ∨ g1 = -1 then .NONE
  else if g0 = g1 then
    if g0 = 0 then .NO_VARIANT else .HOMOZYGOUS
  else .HETEROZYGOUS

/-- Embedding of the nested `fix_gt` of `VCFReader._create_df`
(vcfio.py lines 343-362). -/
def fix_gt (gt_alt_id loop_alt_id : Int) : Int :=
  if gt_alt_id = loop_alt_id then 1
  else if gt_alt_id ≠ 0 then -1
  else 0

/-- Embedding of the genotype rewrite of `_create_df` (vcfio.py lines
366-370): apply `fix_gt` to both haploids, then force both to -1 when
either side is -1. -/
def split_gt_pair (g0 g1 alt_id : Int) : Int × Int :=
  let h0 := fix_gt g0 alt_id
  let h1 := fix_gt g1 alt_id
  if h0 = -1 ∨ h1 = -1 then (-1, -1) else (h0, h1)

/-- Composition of the genotype rewrite with `_detect_zygosity`, exactly as
`_create_df` performs it at line 371. -/
def split_gt_classify (is_fp : Bool) (g0 g1 alt_id : Int) : VariantZygosity :=
  detect_zygosity is_fp (split_gt_pair g0 g1 alt_id).1 (split_gt_pair g0 g1 alt_id).2

/-- Embedding of Python `str.isdigit` restricted to ASCII (the header
Number codes are ASCII): true iff the string is nonempty and every
character is a decimal digit. -/
def isDigitStr (s : String) : Bool :=
  !s.data.isEmpty && s.data.all Char.isDigit

/-- Embedding of Python `int(...)` applied to an all-digit string: the
decimal value of the digit sequence. -/
def strToNat (s : String) : Nat :=
  s.data.foldl (fun a c => 10 * a + (c.toNat - 48)) 0

/-- Embedding of Python `int(...)` applied to an arbitrary string: optional
leading minus sign followed by digits; anything else raises (`none`). -/
def strToIntOpt (s : String) : Option Int :=
  match s.data with
  | [] => none
  | c :: cs =>
    if c = '-' then
      if isDigitStr (String.mk cs) then some (-(strToNat (String.mk cs) : Int)) else none
    else if isDigitStr s then some (strToNat s : Int) else none

/-- Decimal digits of `n`, least significant first, driven by a structural
fuel argument so that the kernel can evaluate it (the fuel is always at
least `n`, which suffices since `n / 10 < n` for `n > 0`). -/
def natDigitsRevAux : Nat → Nat → List Nat
  | 0, _ => []
  | _ + 1, 0 => []
  | fuel + 1, m + 1 => ((m + 1) % 10) :: natDigitsRevAux fuel ((m + 1) / 10)

/-- Embedding of Python `str(...)` on a nonnegative integer: its decimal
representation. -/
def natRepr (n : Nat) : String :=
  if n = 0 then "0"
  else String.mk ((natDigitsRevAux n n).reverse.map (fun d => Char.ofNat (48 + d)))

/-- Embedding of Python `str(...)` on an integer. -/
def intRepr (i : Int) : String :=
  if i < 0 then "-" ++ natRepr i.natAbs else natRepr i.natAbs

/-- Embedding of `VCFReader._get_normalized_count` (vcfio.py lines
221-243).  Python returns `None` implicitly when no branch matches. -/
def get_normalized_count (header_number : String) (num_alts num_samples : Nat) : Option Nat :=
  if header_number = "A" then some num_alts
  else if header_number = "R" then some (num_alts + 1)
  else if header_number = "G" then some num_samples
  else if isDigitStr header_number then some (strToNat header_number)
  else if header_number = "." then some 1
  else none

/-- Embedding of the placeholder construction `[None] * count` of
`_create_df` (vcfio.py lines 320 and 382): multiplying by Python `None`
(an unresolved count) raises, so the result is `none`. -/
def null_fill (count : Option Nat) : Option (List Cell) :=
  count.map (fun c => List.replicate c (none : Cell))

/-- Embedding of the worker-assignment predicate of
`VCFReader._parse_vcf_cyvcf` (vcfio.py line 433):
`(idx // chunksize) % num_threads == thread_id`. -/
def belongs_to_worker (chunksize num_threads idx thread_id : Nat) : Bool :=
  (idx / chunksize) % num_threads == thread_id

/-- Embedding of the `VCFReader.df` property (vcfio.py lines 148-174):
raise when the internal dataframe is unset, otherwise return it. -/
def df (dataframe : Option (List (String × Cell))) : Except String (List (String × Cell)) :=
  match dataframe with
  | none => .error "VCF data frame should be available."
  | some d => .ok d

/-- C1: with target allele id `altId = 1` and the dataset not flagged as a
known false positive, the rewrite step followed by zygosity classification
maps `(0,0)` to `NO_VARIANT`, `(0,1)` to `HETEROZYGOUS`, `(1,1)` to
`HOMOZYGOUS`, `(-1,0)` to `NONE`, and `(2,1)` to `NONE`. -/
theorem c1_zygosity_truth_table :
    split_gt_classify false 0 0 1 = VariantZygosity.NO_VARIANT ∧
    split_gt_classify false 0 1 1 = VariantZygosity.HETEROZYGOUS ∧
    split_gt_classify false 1 1 1 = VariantZygosity.HOMOZYGOUS ∧
    split_gt_classify false (-1) 0 1 = VariantZygosity.NONE ∧
    split_gt_classify false 2 1 1 = VariantZygosity.NONE := by
  decide

/-- C7: with the dataset-level false-positive flag set, the classifier
returns `NO_VARIANT` for every genotype pair, both directly and after the
rewrite step, with no inspection of the genotype values. -/
theorem c7_false_positive_override :
    ∀ g0 g1 alt_id : Int,
      detect_zygosity true g0 g1 = VariantZygosity.NO_VARIANT ∧
      split_gt_classify true g0 g1 alt_id = VariantZygosity.NO_VARIANT := by
  intro g0 g1 alt_id
  constructor <;> simp [detect_zygosity, split_gt_classify]

/-- C9: the `df` accessor raises when no decomposition result is present
and returns the dataframe unchanged when one is. -/
theorem c9_df_accessor :
    df none = Except.error "VCF data frame should be available." ∧
    ∀ d, df (some d) = Except.ok d :=
  ⟨rfl, fun _ => rfl⟩

/-- C10: a header Number code that is none of "A", "R", "G", ".", and not a
digit string resolves to no count, so the null-filled placeholder of
resolved length cannot be constructed. -/
theorem c10_unknown_number_code :
    ∀ (header_number : String) (num_alts num_samples : Nat),
      header_number ≠ "A" → header_number ≠ "R" → header_number ≠ "G" →
      header_number ≠ "." → isDigitStr header_number = false →
      get_normalized_count header_number num_alts num_samples = none ∧
      null_fill (get_normalized_count header_number num_alts num_samples) = none := by
  intro hn a s hA hR hG hDot hDig
  unfold get_normalized_count
  simp [hA, hR, hG, hDot, hDig, null_fill]

/-- Witness for C10 at the concrete Number code "-1". -/
theorem c10_unknown_number_code_witness :
    (("-1" : String) ≠ "A" ∧ ("-1" : String) ≠ "R" ∧ ("-1" : String) ≠ "G" ∧
      ("-1" : String) ≠ "." ∧ isDigitStr "-1" = false) ∧
    get_normalized_count "-1" 3 2 = none ∧
    null_fill (get_normalized_count "-1" 3 2) = none :=
  ⟨⟨by decide, by decide, by decide, by decide, by decide⟩,
    c10_unknown_number_code "-1" 3 2 (by decide) (by decide) (by decide) (by decide) (by decide)⟩

/-- C4 helper statement: every index is assigned to exactly one worker. -/
theorem c4_chunk_coverage :
    ∀ chunksize num_threads : Nat, 1 ≤ chunksize → 1 ≤ num_threads →
      (∀ i : Nat, ∃! w : Nat, w < num_threads ∧
        belongs_to_worker chunksize num_threads i w = true) ∧
      (∀ N : Nat,
        Finset.biUnion (Finset.range num_threads)
          (fun w => (Finset.range N).filter
            (fun i => belongs_to_worker chunksize num_threads i w = true)) =
        Finset.range N) := by
  intro cs W _ hW
  have hWpos : 0 < W := hW
  constructor
  · intro i
    refine ⟨(i / cs) % W, ⟨Nat.mod_lt _ hWpos, ?_⟩, ?_⟩
    · simp [belongs_to_worker]
    · intro w hw
      have := hw.2
      simp only [belongs_to_worker, beq_iff_eq] at this
      omega
  · intro N
    ext i
    simp only [Finset.mem_biUnion, Finset.mem_filter, Finset.mem_range,
      belongs_to_worker, beq_iff_eq]
    constructor
    · rintro ⟨w, _, hiN, _⟩
      exact hiN
    · intro hiN
      exact ⟨(i / cs) % W, Nat.mod_lt _ hWpos, hiN, rfl⟩

/-- Witness for C4 at chunk size 2 and worker count 3. -/
theorem c4_chunk_coverage_witness :
    (1 ≤ 2 ∧ 1 ≤ 3) ∧
    ((∀ i : Nat, ∃! w : Nat, w < 3 ∧ belongs_to_worker 2 3 i w = true) ∧
      (∀ N : Nat,
        Finset.biUnion (Finset.range 3)
          (fun w => (Finset.range N).filter
            (fun i => belongs_to_worker 2 3 i w = true)) =
        Finset.range N)) :=
  ⟨⟨by decide, by decide⟩, c4_chunk_coverage 2 3 (by decide) (by decide)⟩

/-- Helper: the fuel-driven digit lister agrees with `Nat.digits 10` once
the fuel dominates the argument. -/
theorem natDigitsRevAux_eq_digits :
    ∀ (fuel n : Nat), n ≤ fuel → natDigitsRevAux fuel n = Nat.digits 10 n := by
  intro fuel
  induction fuel with
  | zero =>
    intro n hn
    interval_cases n
    simp [natDigitsRevAux]
  | succ f ih =>
    intro n hn
    match n with
    | 0 => simp [natDigitsRevAux]
    | m + 1 =>
      rw [natDigitsRevAux, ih ((m + 1) / 10) (by omega),
        Nat.digits_def' (by norm_num : (1 : Nat) < 10) (Nat.succ_pos m)]

/-- Helper: a decimal digit rendered at codepoint 48 + d is a digit
character. -/
theorem digit_char_isDigit (d : Nat) (hd : d < 10) :
    (Char.ofNat (48 + d)).isDigit = true := by
  interval_cases d <;> decide

/-- Helper: decoding the character rendered for a decimal digit recovers
the digit. -/
theorem digit_char_val (d : Nat) (hd : d < 10) :
    (Char.ofNat (48 + d)).toNat - 48 = d := by
  interval_cases d <;> decide

/-- Helper: folding the character decoder over rendered digits equals
folding over the digits themselves. -/
theorem foldl_digit_chars (L : List Nat) (acc : Nat) (h : ∀ d ∈ L, d < 10) :
    L.foldl (fun a d => 10 * a + ((Char.ofNat (48 + d)).toNat - 48)) acc =
    L.foldl (fun a d => 10 * a + d) acc := by
  induction L generalizing acc with
  | nil => rfl
  | cons d L ih =>
    simp only [List.foldl_cons]
    rw [digit_char_val d (h d (List.mem_cons_self d L))]
    exact ih _ (fun x hx => h x (List.mem_cons_of_mem d hx))

/-- Helper: the most-significant-first decimal fold evaluates reversed
digit lists to their positional value. -/
theorem foldl_reverse_ofDigits (L : List Nat) :
    L.reverse.foldl (fun a d => 10 * a + d) 0 = Nat.ofDigits 10 L := by
  rw [List.foldl_reverse]
  induction L with
  | nil => simp [Nat.ofDigits_nil]
  | cons d L ih =>
    simp only [List.foldr_cons, Nat.ofDigits_cons, ih]
    omega

/-- Helper: parsing back the decimal rendering of a natural number with the
embedded Python `int` recovers the number. -/
theorem strToNat_natRepr (n : Nat) : strToNat (natRepr n) = n := by
  by_cases h : n = 0
  · subst h; decide
  · unfold natRepr
    rw [if_neg h]
    show ((natDigitsRevAux n n).reverse.map (fun d => Char.ofNat (48 + d))).foldl
      (fun a c => 10 * a + (c.toNat - 48)) 0 = n
    rw [List.foldl_map, natDigitsRevAux_eq_digits n n (le_refl n),
      foldl_digit_chars _ _
        (fun d hd => Nat.digits_lt_base (by norm_num) (List.mem_reverse.mp hd)),
      foldl_reverse_ofDigits, Nat.ofDigits_digits]

/-- Helper: the decimal rendering of a natural number passes the embedded
`str.isdigit` test. -/
theorem isDigitStr_natRepr (n : Nat) : isDigitStr (natRepr n) = true := by
  by_cases h : n = 0
  · subst h; decide
  · unfold natRepr
    rw [if_neg h]
    show (!((natDigitsRevAux n n).reverse.map
        (fun d => Char.ofNat (48 + d))).isEmpty &&
      ((natDigitsRevAux n n).reverse.map (fun d => Char.ofNat (48 + d))).all
        Char.isDigit) = true
    rw [natDigitsRevAux_eq_digits n n (le_refl n)]
    have hne : Nat.digits 10 n ≠ [] := Nat.digits_ne_nil_iff_ne_zero.mpr h
    have h1 : ((Nat.digits 10 n).reverse.map
        (fun d => Char.ofNat (48 + d))).isEmpty = false := by
      rcases hL : (Nat.digits 10 n).reverse with _ | ⟨d, L⟩
      · exact absurd (List.reverse_eq_nil_iff.mp hL) hne
      · rfl
    have h2 : ((Nat.digits 10 n).reverse.map
        (fun d => Char.ofNat (48 + d))).all Char.isDigit = true := by
      rw [List.all_eq_true]
      intro c hc
      rcases List.mem_map.mp hc with ⟨d, hd, rfl⟩
      exact digit_char_isDigit d
        (Nat.digits_lt_base (by norm_num) (List.mem_reverse.mp hd))
    rw [h1, h2]
    rfl

/-- Helper: the decimal rendering of a natural number differs from any
string that fails the digit test. -/
theorem natRepr_ne_of (n : Nat) (s : String) (hs : isDigitStr s = false) :
    natRepr n ≠ s := by
  intro h
  have hd := isDigitStr_natRepr n
  rw [h, hs] at hd
  exact Bool.false_ne_true hd

/-- C2: the arity resolver maps Number code "A" to the alt count, "R" to
alt count + 1, "G" to the sample count, any decimal-digit string to its
integer value, and "." to 1. -/
theorem c2_arity_table :
    ∀ (num_alts num_samples n : Nat),
      get_normalized_count "A" num_alts num_samples = some num_alts ∧
      get_normalized_count "R" num_alts num_samples = some (num_alts + 1) ∧
      get_normalized_count "G" num_alts num_samples = some num_samples ∧
      get_normalized_count (natRepr n) num_alts num_samples = some n ∧
      get_normalized_count "." num_alts num_samples = some 1 := by
  intro a s n
  refine ⟨?_, ?_, ?_, ?_, ?_⟩
  · unfold get_normalized_count
    rw [if_pos rfl]
  · unfold get_normalized_count
    rw [if_neg (by decide : ¬ ("R" : String) = "A"), if_pos rfl]
  · unfold get_normalized_count
    rw [if_neg (by decide : ¬ ("G" : String) = "A"),
      if_neg (by decide : ¬ ("G" : String) = "R"), if_pos rfl]
  · unfold get_normalized_count
    rw [if_neg (natRepr_ne_of n "A" (by decide)),
      if_neg (natRepr_ne_of n "R" (by decide)),
      if_neg (natRepr_ne_of n "G" (by decide)),
      if_pos (isDigitStr_natRepr n), strToNat_natRepr]
  · unfold get_normalized_count
    rw [if_neg (by decide : ¬ ("." : String) = "A"),
      if_neg (by decide : ¬ ("." : String) = "R"),
      if_neg (by decide : ¬ ("." : String) = "G"),
      if_neg (by decide : ¬ (isDigitStr "." = true)), if_pos rfl]

/-- Embedding of Python `str(v)` on a scalar, as a string. -/
def py_str_val : PyVal → String
  | .vstr s => s
  | .vint n => intRepr n
  | .vbool b => cond b "True" "False"
  | .vfloat n => intRepr n ++ ".0"

/-- Embedding of Python `str(v)` on a scalar, as a scalar. -/
def py_str (v : PyVal) : PyVal := .vstr (py_str_val v)

/-- Embedding of Python `str(v)` on a nullable scalar (`str(None)` is the
string "None"). -/
def py_str_cell : Cell → String
  | none => "None"
  | some v => py_str_val v

/-- Embedding of Python `int(v)` on a scalar; `none` models a raised
`ValueError`. -/
def py_int : PyVal → Option PyVal
  | .vint n => some (.vint n)
  | .vbool b => some (.vint (cond b 1 0))
  | .vfloat n => some (.vint n)
  | .vstr s => (strToIntOpt s).map PyVal.vint

/-- Embedding of Python `float(v)` on a scalar (integral fragment); `none`
models a raised `ValueError`. -/
def py_float : PyVal → Option PyVal
  | .vint n => some (.vfloat n)
  | .vbool b => some (.vfloat (cond b 1 0))
  | .vfloat n => some (.vfloat n)
  | .vstr s => (strToIntOpt s).map PyVal.vfloat

/-- Embedding of the "String" coercion lambda of
`_get_header_type_lambda` (vcfio.py line 257). -/
def str_lambda : Cell → Option Cell
  | none => some none
  | some v => some (some (py_str v))

/-- Embedding of the "Integer" coercion lambda of
`_get_header_type_lambda` (vcfio.py line 259); the inner `none` models a
conversion that raises. -/
def int_lambda : Cell → Option Cell
  | none => some none
  | some v => (py_int v).map some

/-- Embedding of the "Float" coercion lambda of
`_get_header_type_lambda` (vcfio.py line 261); the inner `none` models a
conversion that raises. -/
def float_lambda : Cell → Option Cell
  | none => some none
  | some v => (py_float v).map some

/-- Embedding of the "Flag" coercion lambda of
`_get_header_type_lambda` (vcfio.py line 263): true iff a value is
present. -/
def flag_lambda : Cell → Option Cell
  | none => some (some (.vbool false))
  | some _ => some (some (.vbool true))

/-- Embedding of `VCFReader._get_header_type_lambda` (vcfio.py lines
245-265): for each declared value type return the coercion applied to a
nullable raw scalar; an unrecognized type string raises immediately. -/
def get_header_type_lambda (header_type : String) : Except String (Cell → Option Cell) :=
  if header_type = "String" then .ok str_lambda
  else if header_type = "Integer" then .ok int_lambda
  else if header_type = "Float" then .ok float_lambda
  else if header_type = "Flag" then .ok flag_lambda
  else .error ("Unknown VCF header type:" ++ header_type)

/-- Present INFO value as delivered by the record source (`cyvcf2`): either
a bare scalar or a tuple of nullable scalars. -/
inductive InfoVal : Type
  | single (v : PyVal)
  | tup (vs : List Cell)
deriving DecidableEq

/-- One parsed variant record (`cyvcf2.Variant`) as consumed by
`_create_df`: locus fields, alternate alleles, raw filter string, present
INFO values, per-sample diploid genotypes, and per-sample FORMAT values.
`stop` embeds `variant.end` (a Lean keyword). -/
structure VRecord : Type where
  chrom : String
  start : Int
  stop : Int
  rid : Option String
  ref : String
  alt : List String
  qual : Cell
  filterStr : Option String
  info : List (String × InfoVal)
  genotypes : List (Int × Int)
  fmt : List (String × List (List Cell))
deriving DecidableEq

/-- Reader configuration shared by `_create_df`: sample names, the header
table mapping a field ID to its (Number, Type) pair, the requested key
lists (after wildcard expansion), and the false-positive flag. -/
structure VCFConfig : Type where
  samples : List String
  header : List (String × String × String)
  info_keys : List String
  filter_keys : List String
  format_keys : List String
  is_fp : Bool
deriving DecidableEq

/-- Embedding of `vcf.get_header_type(name)` (cyvcf2): return the
(Number, Type) pair of a declared field, raising `KeyError` otherwise. -/
def get_header_type (hdr : List (String × String × String)) (k : String) :
    Except String (String × String) :=
  match hdr.find? (fun h => h.1 = k) with
  | some h => .ok h.2
  | none => .error ("KeyError: " ++ k)

/-- Monadic map over a list with early exit on a raised exception, the
embedding of a sequential Python loop that may raise. -/
def mapE {α β : Type} (f : α → Except String β) : List α → Except String (List β)
  | [] => .ok []
  | x :: xs => do
    let y ← f x
    let ys ← mapE f xs
    pure (y :: ys)

/-- Lift an optional value into the exception monad, the embedding of a
Python operation that raises when its operand is missing. -/
def liftO {α : Type} (msg : String) : Option α → Except String α
  | some a => .ok a
  | none => .error msg

/-- Embedding of Python `enumerate` starting at a given index. -/
def enumFromN {α : Type} : Nat → List α → List (Nat × α)
  | _, [] => []
  | i, a :: as => (i, a) :: enumFromN (i + 1) as

/-- Embedding of `info_col in variant.INFO` / `variant.INFO[info_col]`. -/
def lookup_info (v : VRecord) (k : String) : Option InfoVal :=
  (v.info.find? (fun p => p.1 = k)).map (fun p => p.2)

/-- Embedding of `variant.format(format_col)`: the per-sample value matrix
when the FORMAT field is present. -/
def lookup_fmt (v : VRecord) (k : String) : Option (List (List Cell)) :=
  (v.fmt.find? (fun p => p.1 = k)).map (fun p => p.2)

/-- Embedding of the tuple coercion of `_create_df` (vcfio.py lines
316-318): wrap a bare scalar into a one-element tuple. -/
def norm_tuple : InfoVal → List Cell
  | .single x => [some x]
  | .tup vs => vs

/-- Embedding of the INFO value fetch of `_create_df` (vcfio.py lines
314-320): the present value coerced to a tuple, or the null-filled
placeholder of resolved length. -/
def info_val (cfg : VCFConfig) (num_alts : Nat) (v : VRecord)
    (info_col header_number : String) : Except String (List Cell) :=
  match lookup_info v info_col with
  | some iv => pure (norm_tuple iv)
  | none => liftO "TypeError: unresolved count" (null_fill (get_normalized_count header_number num_alts cfg.samples.length))

/-- Embedding of the FORMAT value fetch of `_create_df` (vcfio.py lines
378-382): the present per-sample row, or the null-filled placeholder of
resolved length. -/
def fmt_val (cfg : VCFConfig) (num_alts : Nat) (v : VRecord)
    (format_col header_number : String) (sample_idx : Nat) : Except String (List Cell) :=
  match lookup_fmt v format_col with
  | some rows => liftO "IndexError: sample" (rows.get? sample_idx)
  | none => liftO "TypeError: unresolved count" (null_fill (get_normalized_count header_number num_alts cfg.samples.length))

/-- Embedding of the INFO column key `"INFO_" + info_col` of `_create_df`
(vcfio.py line 322). -/
def info_df_key (info_col : String) : String := "INFO_" ++ info_col

/-- Embedding of the FORMAT column key `sample_name + "_" + format_col` of
`_create_df` (vcfio.py line 384). -/
def fmt_df_key (sample_name format_col : String) : String :=
  sample_name ++ "_" ++ format_col

/-- Embedding of the INFO-column processing of `_create_df` for one field
of one decomposed row (vcfio.py lines 309-337).  Note the Number "A"
branch emits the raw element without applying the header type lambda,
exactly as line 325 does. -/
def info_field_cells (cfg : VCFConfig) (num_alts alt_idx : Nat) (v : VRecord)
    (info_col : String) : Except String (List (String × Cell)) := do
  let ht ← get_header_type cfg.header info_col
  let conv ← get_header_type_lambda ht.2
  let val ← info_val cfg num_alts v info_col ht.1
  if ht.1 = "A" then do
    let x ← liftO "IndexError" (val.get? alt_idx)
    pure [(info_df_key info_col, x)]
  else if ht.1 = "R" then do
    let x0 ← liftO "IndexError" (val.get? 0)
    let c0 ← liftO "TypeError: conversion failed" (conv x0)
    let x1 ← liftO "IndexError" (val.get? (alt_idx + 1))
    let c1 ← liftO "TypeError: conversion failed" (conv x1)
    pure [(info_df_key info_col ++ "_REF", c0), (info_df_key info_col ++ "_ALT", c1)]
  else if isDigitStr ht.1 then
    if strToNat ht.1 = 1 then do
      let x ← liftO "IndexError" (val.get? 0)
      let c ← liftO "TypeError: conversion failed" (conv x)
      pure [(info_df_key info_col, c)]
    else
      mapE (fun i => do
        let x ← liftO "IndexError" (val.get? i)
        let c ← liftO "TypeError: conversion failed" (conv x)
        pure (info_df_key info_col ++ "_" ++ natRepr i, c)) (List.range (strToNat ht.1))
  else if ht.1 = "." then
    pure [(info_df_key info_col, some (.vstr (String.intercalate "," (val.map py_str_cell))))]
  else
    pure []

/-- Embedding of the GT handling of `_create_df` for one sample of one
decomposed row (vcfio.py lines 363-372). -/
def gt_cells (cfg : VCFConfig) (v : VRecord) (alt_idx : Nat)
    (sample_idx : Nat) (sample_name : String) :
    Except String (List (String × Cell)) := do
  let gt ← liftO "IndexError: genotypes" (v.genotypes.get? sample_idx)
  let p := split_gt_pair gt.1 gt.2 ((alt_idx : Int) + 1)
  pure [(sample_name ++ "_zyg",
          some (.vint (zygosity_int (detect_zygosity cfg.is_fp p.1 p.2)))),
        (sample_name ++ "_GT",
          some (.vstr (intRepr p.1 ++ "/" ++ intRepr p.2)))]

/-- Embedding of the non-GT FORMAT-column processing of `_create_df` for
one field of one sample of one decomposed row (vcfio.py lines 373-401).
Unlike the INFO case, the Number "A" branch applies the header type
lambda (line 388). -/
def fmt_field_cells (cfg : VCFConfig) (num_alts alt_idx : Nat) (v : VRecord)
    (format_col : String) (sample_idx : Nat) (sample_name : String) :
    Except String (List (String × Cell)) := do
  let ht ← get_header_type cfg.header format_col
  let conv ← get_header_type_lambda ht.2
  let val ← fmt_val cfg num_alts v format_col ht.1 sample_idx
  if ht.1 = "A" then do
    let x ← liftO "IndexError" (val.get? alt_idx)
    let c ← liftO "TypeError: conversion failed" (conv x)
    pure [(fmt_df_key sample_name format_col, c)]
  else if ht.1 = "R" then do
    let x0 ← liftO "IndexError" (val.get? 0)
    let c0 ← liftO "TypeError: conversion failed" (conv x0)
    let x1 ← liftO "IndexError" (val.get? (alt_idx + 1))
    let c1 ← liftO "TypeError: conversion failed" (conv x1)
    pure [(fmt_df_key sample_name format_col ++ "_REF", c0),
      (fmt_df_key sample_name format_col ++ "_ALT", c1)]
  else if isDigitStr ht.1 then
    if strToNat ht.1 = 1 then do
      let x ← liftO "IndexError" (val.get? 0)
      let c ← liftO "TypeError: conversion failed" (conv x)
      pure [(fmt_df_key sample_name format_col, c)]
    else
      mapE (fun i => do
        let x ← liftO "IndexError" (val.get? i)
        let c ← liftO "TypeError: conversion failed" (conv x)
        pure (fmt_df_key sample_name format_col ++ "_" ++ natRepr i, c)) (List.range (strToNat ht.1))
  else if ht.1 = "." then
    pure [(fmt_df_key sample_name format_col, some (.vstr (String.intercalate "," (val.map py_str_cell))))]
  else
    pure []

/-- Embedding of the standard per-row columns of `_create_df`
(vcfio.py lines 290-298), in append order. -/
def std_cells (v : VRecord) (alt : String) : List (String × Cell) :=
  [("chrom", some (.vstr v.chrom)),
   ("start_pos", some (.vint v.start)),
   ("end_pos", some (.vint v.stop)),
   ("id", v.rid.map PyVal.vstr),
   ("ref", some (.vstr v.ref)),
   ("alt", some (.vstr alt)),
   ("variant_type", some (.vint (variant_type_int (detect_variant_type v.ref alt)))),
   ("quality", v.qual)]

/-- Embedding of the FILTER-column processing of `_create_df`
(vcfio.py lines 300-304). -/
def filter_cells (filter_keys : List String) (v : VRecord) : List (String × Cell) :=
  let variant_filter := match v.filterStr with
    | none => "PASS"
    | some f => f
  let filter_set := variant_filter.splitOn ";"
  filter_keys.map (fun fc => ("FILTER_" ++ fc, some (.vbool (filter_set.contains fc))))

/-- Embedding of one iteration of the alt-allele loop of `_create_df`
(vcfio.py lines 289-401): the cells appended for one decomposed row, in
append order. -/
def alt_cells (cfg : VCFConfig) (v : VRecord) (num_alts alt_idx : Nat) (alt : String) :
    Except String (List (String × Cell)) := do
  let info_parts ← mapE (info_field_cells cfg num_alts alt_idx v) cfg.info_keys
  let fmt_parts ← mapE (fun format_col =>
      mapE (fun si =>
          if format_col = "GT" then gt_cells cfg v alt_idx si.1 si.2
          else fmt_field_cells cfg num_alts alt_idx v format_col si.1 si.2)
        (enumFromN 0 cfg.samples)) cfg.format_keys
  pure (std_cells v alt ++ filter_cells cfg.filter_keys v ++
    info_parts.flatten ++ (fmt_parts.map List.flatten).flatten)

/-- Embedding of the variant loop body of `_create_df` for one record:
one decomposed row per alternate allele, in alternate-allele order
(vcfio.py lines 286-289). -/
def process_variant (cfg : VCFConfig) (v : VRecord) :
    Except String (List (String × Cell)) := do
  let parts ← mapE (fun ia => alt_cells cfg v v.alt.length ia.1 ia.2)
    (enumFromN 0 v.alt)
  pure parts.flatten

/-- Embedding of `VCFReader._create_df` (vcfio.py lines 267-406): the
columnar append log for a list of records.  A pair `(k, c)` records one
`df_dict[k].append(c)`, so a column of the resulting dataframe is the
ordered sublist of cells logged under its key. -/
def create_df (cfg : VCFConfig) (variant_list : List VRecord) :
    Except String (List (String × Cell)) := do
  let parts ← mapE (process_variant cfg) variant_list
  pure parts.flatten

/-- Embedding of the key-count resolution loop of
`VCFReader._parallel_parse_vcf` (vcfio.py lines 466-468 and 481-483):
for each requested key, look up its declared Number and resolve the count
with alt count 1; the declared Type is never consulted here. -/
def resolve_key_counts (hdr : List (String × String × String))
    (keys : List String) (num_samples : Nat) :
    Except String (List (String × Option Nat)) :=
  mapE (fun k => do
    let ht ← get_header_type hdr k
    pure (k, get_normalized_count ht.1 1 num_samples)) keys

/-- Column of the append log under one key, in append order. -/
def col_cells (key : String) (log : List (String × Cell)) : List Cell :=
  (log.filter (fun p => p.1 = key)).map (fun p => p.2)

/-- Number of appends logged under one key. -/
def count_key (key : String) (log : List (String × Cell)) : Nat :=
  (log.filter (fun p => p.1 = key)).length

/-- Embedding of `row[key]` on a pandas row of the assembled table: raise
`KeyError` when no such column exists, otherwise the cell of the row at
the given index. -/
def row_val (log : List (String × Cell)) (row_idx : Nat) (key : String) :
    Except String Cell :=
  let col := col_cells key log
  if col.isEmpty then .error ("KeyError: " ++ key)
  else match col.get? row_idx with
    | some c => .ok c
    | none => .error ("IndexError: " ++ key)

/-- Value of one rebuilt INFO entry: a single unwrapped cell or an ordered
list of cells. -/
inductive InfoEntry : Type
  | one (c : Cell)
  | many (cs : List Cell)
deriving DecidableEq

/-- Embedding of the INFO-map rebuild of `VCFReader.__getitem__`
(vcfio.py lines 117-126): for each saved key with its resolved count,
unwrap a single value or collect `count` suffix-indexed columns; a `None`
count reaches `range(None)` and raises. -/
def getitem_info (info_key_counts : List (String × Option Nat))
    (log : List (String × Cell)) (row_idx : Nat) :
    Except String (List (String × InfoEntry)) :=
  mapE (fun kc =>
    match kc.2 with
    | none => .error "TypeError: range over None"
    | some count =>
      if count = 1 then do
        let c ← row_val log row_idx ("INFO_" ++ kc.1)
        pure (kc.1, InfoEntry.one c)
      else do
        let cs ← mapE (fun i => row_val log row_idx ("INFO_" ++ kc.1 ++ "_" ++ natRepr i))
          (List.range count)
        pure (kc.1, InfoEntry.many cs)) info_key_counts

/-- Config for C5: one INFO field "X" with Number "A" and Type "Integer". -/
def c5_cfg_info_a_integer : VCFConfig := ⟨["s"], [("X", "A", "Integer")], ["X"], [], [], false⟩

/-- Config for C5: one INFO field "X" declared as a Flag with Number "1". -/
def c5_cfg_info_flag : VCFConfig := ⟨["s"], [("X", "1", "Flag")], ["X"], [], [], false⟩

/-- Record for C5 with a single-alt locus carrying INFO "X" as a bare
scalar. -/
def c5_rec (v : PyVal) : VRecord :=
  ⟨"1", 100, 101, none, "A", ["T"], none, none, [("X", .single v)], [(0, 1)], []⟩

/-- Record for C5 carrying INFO "X" as a two-element tuple. -/
def c5_rec2 (v0 v1 : PyVal) : VRecord :=
  ⟨"1", 100, 101, none, "A", ["T"], none, none, [("X", .tup [some v0, some v1])], [(0, 1)], []⟩

/-- Record for C5 carrying FORMAT "F" with one value for the one sample. -/
def c5_rec_fmt (v : PyVal) : VRecord :=
  ⟨"1", 100, 101, none, "A", ["T"], none, none, [], [(0, 1)], [("F", [[some v]])]⟩

/-- Record for C5 carrying FORMAT "F" with two values for the one
sample. -/
def c5_rec_fmt2 (v0 v1 : PyVal) : VRecord :=
  ⟨"1", 100, 101, none, "A", ["T"], none, none, [], [(0, 1)], [("F", [[some v0, some v1]])]⟩

/-- Record for C5 with no INFO fields present. -/
def c5_rec_absent : VRecord :=
  ⟨"1", 100, 101, none, "A", ["T"], none, none, [], [(0, 1)], []⟩

/-- Append log produced by decomposing `c5_rec (PyVal.vstr "5")` under
`c5_cfg_info_a_integer`. -/
def c5_info_a_log : List (String × Cell) :=
  [("chrom", some (.vstr "1")), ("start_pos", some (.vint 100)),
   ("end_pos", some (.vint 101)), ("id", none), ("ref", some (.vstr "A")),
   ("alt", some (.vstr "T")), ("variant_type", some (.vint 0)), ("quality", none),
   ("INFO_X", some (.vstr "5"))]

/-- C5 counterexample: for the INFO field "X" with Number "A" and declared
Type "Integer", the decomposer emits the raw scalar `"5"` unconverted,
while applying the declared Integer coercion to that raw scalar yields the
different value `5`; so the declared value type is not applied to every raw
scalar before emission. -/
theorem c5_info_a_skips_coercion_counterexample :
    create_df c5_cfg_info_a_integer [c5_rec (PyVal.vstr "5")] = Except.ok c5_info_a_log ∧
    col_cells "INFO_X" c5_info_a_log = [some (PyVal.vstr "5")] ∧
    (get_header_type_lambda "Integer").map (fun conv => conv (some (PyVal.vstr "5"))) =
      Except.ok (some (some (PyVal.vint 5))) ∧
    (some (PyVal.vstr "5") : Cell) ≠ some (PyVal.vint 5) :=
  ⟨rfl, rfl, rfl, by decide⟩

/-- C5 amended: for every recognized declared value type - its coercion
being whatever `_get_header_type_lambda` returns for it - and every raw
scalar, the emitted cell equals the declared coercion applied to the raw
scalar, in the INFO Number "1", "R", and "2" branches and in the FORMAT
Number "A", "1", "R", and "2" branches; an INFO field with Number code "A"
instead emits the raw scalar without applying the declared type; a Flag
field's emitted value is true iff the field is present, regardless of its
raw content; and the Integer and Float coercions genuinely convert (they
are not plain stringification). -/
theorem c5_amended_coercion :
    ∀ (t : String) (cv : Cell → Option Cell) (v0 v1 : PyVal) (c0 c1 : Cell),
      (get_header_type_lambda t = Except.ok cv →
        cv (some v0) = some c0 → cv (some v1) = some c1 →
        info_field_cells ⟨["s"], [("X", "A", t)], ["X"], [], [], false⟩ 1 0 (c5_rec v0) "X" =
          Except.ok [("INFO_X", some v0)] ∧
        info_field_cells ⟨["s"], [("X", "1", t)], ["X"], [], [], false⟩ 1 0 (c5_rec v0) "X" =
          Except.ok [("INFO_X", c0)] ∧
        info_field_cells ⟨["s"], [("X", "R", t)], ["X"], [], [], false⟩ 1 0 (c5_rec2 v0 v1) "X" =
          Except.ok [("INFO_X_REF", c0), ("INFO_X_ALT", c1)] ∧
        info_field_cells ⟨["s"], [("X", "2", t)], ["X"], [], [], false⟩ 1 0 (c5_rec2 v0 v1) "X" =
          Except.ok [("INFO_X_0", c0), ("INFO_X_1", c1)] ∧
        fmt_field_cells ⟨["s"], [("F", "A", t)], [], [], ["F"], false⟩ 1 0 (c5_rec_fmt v0) "F" 0 "s" =
          Except.ok [("s_F", c0)] ∧
        fmt_field_cells ⟨["s"], [("F", "1", t)], [], [], ["F"], false⟩ 1 0 (c5_rec_fmt v0) "F" 0 "s" =
          Except.ok [("s_F", c0)] ∧
        fmt_field_cells ⟨["s"], [("F", "R", t)], [], [], ["F"], false⟩ 1 0 (c5_rec_fmt2 v0 v1) "F" 0 "s" =
          Except.ok [("s_F_REF", c0), ("s_F_ALT", c1)] ∧
        fmt_field_cells ⟨["s"], [("F", "2", t)], [], [], ["F"], false⟩ 1 0 (c5_rec_fmt2 v0 v1) "F" 0 "s" =
          Except.ok [("s_F_0", c0), ("s_F_1", c1)]) ∧
      (info_field_cells c5_cfg_info_flag 1 0 (c5_rec v0) "X" =
          Except.ok [("INFO_X", some (PyVal.vbool true))] ∧
        info_field_cells c5_cfg_info_flag 1 0 c5_rec_absent "X" =
          Except.ok [("INFO_X", some (PyVal.vbool false))]) ∧
      (info_field_cells ⟨["s"], [("X", "1", "Integer")], ["X"], [], [], false⟩ 1 0
          (c5_rec (PyVal.vstr "7")) "X" = Except.ok [("INFO_X", some (PyVal.vint 7))] ∧
        fmt_field_cells ⟨["s"], [("F", "A", "Integer")], [], [], ["F"], false⟩ 1 0
          (c5_rec_fmt (PyVal.vstr "7")) "F" 0 "s" = Except.ok [("s_F", some (PyVal.vint 7))] ∧
        info_field_cells ⟨["s"], [("X", "1", "Float")], ["X"], [], [], false⟩ 1 0
          (c5_rec (PyVal.vint 7)) "X" = Except.ok [("INFO_X", some (PyVal.vfloat 7))]) := by
  intro t cv v0 v1 c0 c1
  refine ⟨?_, ⟨rfl, rfl⟩, ⟨rfl, rfl, rfl⟩⟩
  intro hcv h0 h1
  refine ⟨?_, ?_, ?_, ?_, ?_, ?_, ?_, ?_⟩
  · simp [info_field_cells, get_header_type, info_val, lookup_info, norm_tuple, liftO,
      hcv, Bind.bind, Except.bind, Pure.pure, Except.pure, c5_rec,
      List.getElem?_cons_zero, (by decide : info_df_key "X" = "INFO_X")]
  · simp [info_field_cells, get_header_type, info_val, lookup_info, norm_tuple, liftO,
      hcv, h0, Bind.bind, Except.bind, Pure.pure, Except.pure, c5_rec,
      List.getElem?_cons_zero, List.getElem?_cons_succ,
      (by decide : isDigitStr "1" = true), (by decide : strToNat "1" = 1),
      (by decide : info_df_key "X" = "INFO_X")]
  · simp [info_field_cells, get_header_type, info_val, lookup_info, norm_tuple, liftO,
      hcv, h0, h1, Bind.bind, Except.bind, Pure.pure, Except.pure, c5_rec2,
      List.getElem?_cons_zero, List.getElem?_cons_succ,
      (by decide : info_df_key "X" ++ "_REF" = "INFO_X_REF"),
      (by decide : info_df_key "X" ++ "_ALT" = "INFO_X_ALT")]
  · simp [info_field_cells, get_header_type, info_val, lookup_info, norm_tuple, liftO,
      hcv, h0, h1, Bind.bind, Except.bind, Pure.pure, Except.pure, c5_rec2, mapE,
      List.getElem?_cons_zero, List.getElem?_cons_succ,
      (by decide : isDigitStr "2" = true), (by decide : strToNat "2" = 2),
      (by decide : List.range 2 = [0, 1]),
      (by decide : info_df_key "X" ++ "_" ++ natRepr 0 = "INFO_X_0"),
      (by decide : info_df_key "X" ++ "_" ++ natRepr 1 = "INFO_X_1")]
  · simp [fmt_field_cells, get_header_type, fmt_val, lookup_fmt, liftO,
      hcv, h0, Bind.bind, Except.bind, Pure.pure, Except.pure, c5_rec_fmt,
      List.getElem?_cons_zero, (by decide : fmt_df_key "s" "F" = "s_F")]
  · simp [fmt_field_cells, get_header_type, fmt_val, lookup_fmt, liftO,
      hcv, h0, Bind.bind, Except.bind, Pure.pure, Except.pure, c5_rec_fmt,
      List.getElem?_cons_zero, List.getElem?_cons_succ,
      (by decide : isDigitStr "1" = true), (by decide : strToNat "1" = 1),
      (by decide : fmt_df_key "s" "F" = "s_F")]
  · simp [fmt_field_cells, get_header_type, fmt_val, lookup_fmt, liftO,
      hcv, h0, h1, Bind.bind, Except.bind, Pure.pure, Except.pure, c5_rec_fmt2,
      List.getElem?_cons_zero, List.getElem?_cons_succ,
      (by decide : fmt_df_key "s" "F" ++ "_REF" = "s_F_REF"),
      (by decide : fmt_df_key "s" "F" ++ "_ALT" = "s_F_ALT")]
  · simp [fmt_field_cells, get_header_type, fmt_val, lookup_fmt, liftO,
      hcv, h0, h1, Bind.bind, Except.bind, Pure.pure, Except.pure, c5_rec_fmt2, mapE,
      List.getElem?_cons_zero, List.getElem?_cons_succ,
      (by decide : isDigitStr "2" = true), (by decide : strToNat "2" = 2),
      (by decide : List.range 2 = [0, 1]),
      (by decide : fmt_df_key "s" "F" ++ "_" ++ natRepr 0 = "s_F_0"),
      (by decide : fmt_df_key "s" "F" ++ "_" ++ natRepr 1 = "s_F_1")]

/-- Witness for C5 at the declared type "Integer", whose coercion
`int_lambda` maps the raw strings "5" and "6" to the integers 5 and 6. -/
theorem c5_amended_coercion_witness :
    (get_header_type_lambda "Integer" = Except.ok int_lambda ∧
      int_lambda (some (PyVal.vstr "5")) = some (some (PyVal.vint 5)) ∧
      int_lambda (some (PyVal.vstr "6")) = some (some (PyVal.vint 6))) ∧
    (info_field_cells ⟨["s"], [("X", "A", "Integer")], ["X"], [], [], false⟩ 1 0
        (c5_rec (PyVal.vstr "5")) "X" = Except.ok [("INFO_X", some (PyVal.vstr "5"))] ∧
      info_field_cells ⟨["s"], [("X", "1", "Integer")], ["X"], [], [], false⟩ 1 0
        (c5_rec (PyVal.vstr "5")) "X" = Except.ok [("INFO_X", some (PyVal.vint 5))] ∧
      info_field_cells ⟨["s"], [("X", "R", "Integer")], ["X"], [], [], false⟩ 1 0
        (c5_rec2 (PyVal.vstr "5") (PyVal.vstr "6")) "X" =
          Except.ok [("INFO_X_REF", some (PyVal.vint 5)), ("INFO_X_ALT", some (PyVal.vint 6))] ∧
      info_field_cells ⟨["s"], [("X", "2", "Integer")], ["X"], [], [], false⟩ 1 0
        (c5_rec2 (PyVal.vstr "5") (PyVal.vstr "6")) "X" =
          Except.ok [("INFO_X_0", some (PyVal.vint 5)), ("INFO_X_1", some (PyVal.vint 6))] ∧
      fmt_field_cells ⟨["s"], [("F", "A", "Integer")], [], [], ["F"], false⟩ 1 0
        (c5_rec_fmt (PyVal.vstr "5")) "F" 0 "s" = Except.ok [("s_F", some (PyVal.vint 5))] ∧
      fmt_field_cells ⟨["s"], [("F", "1", "Integer")], [], [], ["F"], false⟩ 1 0
        (c5_rec_fmt (PyVal.vstr "5")) "F" 0 "s" = Except.ok [("s_F", some (PyVal.vint 5))] ∧
      fmt_field_cells ⟨["s"], [("F", "R", "Integer")], [], [], ["F"], false⟩ 1 0
        (c5_rec_fmt2 (PyVal.vstr "5") (PyVal.vstr "6")) "F" 0 "s" =
          Except.ok [("s_F_REF", some (PyVal.vint 5)), ("s_F_ALT", some (PyVal.vint 6))] ∧
      fmt_field_cells ⟨["s"], [("F", "2", "Integer")], [], [], ["F"], false⟩ 1 0
        (c5_rec_fmt2 (PyVal.vstr "5") (PyVal.vstr "6")) "F" 0 "s" =
          Except.ok [("s_F_0", some (PyVal.vint 5)), ("s_F_1", some (PyVal.vint 6))]) :=
  ⟨⟨rfl, rfl, rfl⟩,
    (c5_amended_coercion "Integer" int_lambda (PyVal.vstr "5") (PyVal.vstr "6")
      (some (PyVal.vint 5)) (some (PyVal.vint 6))).1 rfl rfl rfl⟩

/-- Config for C6: one INFO field "AD" with Number "R" and Type
"Integer", one sample. -/
def c6_cfg : VCFConfig := ⟨["s0"], [("AD", "R", "Integer")], ["AD"], [], [], false⟩

/-- Record for C6: single-alt locus carrying INFO "AD" = (3, 4). -/
def c6_rec : VRecord :=
  ⟨"1", 100, 101, none, "A", ["T"], none, none,
    [("AD", .tup [some (.vint 3), some (.vint 4)])], [(0, 1)], []⟩

/-- Append log produced by decomposing `c6_rec` under `c6_cfg`. -/
def c6_log : List (String × Cell) :=
  [("chrom", some (.vstr "1")), ("start_pos", some (.vint 100)),
   ("end_pos", some (.vint 101)), ("id", none), ("ref", some (.vstr "A")),
   ("alt", some (.vstr "T")), ("variant_type", some (.vint 0)), ("quality", none),
   ("INFO_AD_REF", some (.vint 3)), ("INFO_AD_ALT", some (.vint 4))]

/-- C6: for an INFO field with Number code "R" the schema resolver stores
count 2, the decomposer emits columns suffixed `_REF` and `_ALT`, and the
row materializer then requests the absent column `INFO_AD_0`, raising
`KeyError` instead of rebuilding the INFO map. -/
theorem c6_r_rebuild_raises :
    create_df c6_cfg [c6_rec] = Except.ok c6_log ∧
    resolve_key_counts c6_cfg.header c6_cfg.info_keys c6_cfg.samples.length =
      Except.ok [("AD", some 2)] ∧
    getitem_info [("AD", some 2)] c6_log 0 = Except.error "KeyError: INFO_AD_0" ∧
    count_key "INFO_AD_REF" c6_log = 1 ∧
    count_key "INFO_AD_ALT" c6_log = 1 ∧
    count_key "INFO_AD_0" c6_log = 0 :=
  ⟨rfl, rfl, rfl, rfl, rfl, rfl⟩

/-- Config for C8: one INFO field "X" whose declared Type "Bogus" is not
one of the four recognized strings. -/
def c8_cfg : VCFConfig := ⟨["s"], [("X", "1", "Bogus")], ["X"], [], [], false⟩

/-- Record for C8: single-alt locus carrying INFO "X" = 7. -/
def c8_rec : VRecord :=
  ⟨"1", 100, 101, none, "A", ["T"], none, none, [("X", .single (.vint 7))], [(0, 1)], []⟩

/-- Record for C8 that does not carry the INFO field "X" at all. -/
def c8_rec_absent : VRecord :=
  ⟨"1", 100, 101, none, "A", ["T"], none, none, [], [(0, 1)], []⟩

/-- C8 counterexample: with the unrecognized declared Type "Bogus", schema
resolution completes without error (it inspects only the Number), and the
raise happens later, while a worker decomposes a record; so the abort does
not occur during schema resolution before parallel parsing starts. -/
theorem c8_resolution_does_not_abort_counterexample :
    resolve_key_counts c8_cfg.header c8_cfg.info_keys c8_cfg.samples.length =
      Except.ok [("X", some 1)] ∧
    create_df c8_cfg [c8_rec] = Except.error "Unknown VCF header type:Bogus" :=
  ⟨rfl, rfl⟩

/-- C8 amended: an unrecognized header value-type string makes the reader
raise, but not during schema resolution, which inspects only the Number
code and completes without error: the raise happens while a worker
decomposes a record - the type lambda is fetched before the presence
check, so any decomposed record triggers it, whether it carries the field
(`c8_rec`) or not (`c8_rec_absent`) - and the four recognized type strings
never raise. -/
theorem c8_unknown_type_raises_in_decomposition :
    ∀ t : String, t ≠ "String" → t ≠ "Integer" → t ≠ "Float" → t ≠ "Flag" →
      get_header_type_lambda t = Except.error ("Unknown VCF header type:" ++ t) ∧
      resolve_key_counts [("X", "1", t)] ["X"] 1 = Except.ok [("X", some 1)] ∧
      info_field_cells ⟨["s"], [("X", "1", t)], ["X"], [], [], false⟩ 1 0 c8_rec "X" =
        Except.error ("Unknown VCF header type:" ++ t) ∧
      info_field_cells ⟨["s"], [("X", "1", t)], ["X"], [], [], false⟩ 1 0 c8_rec_absent "X" =
        Except.error ("Unknown VCF header type:" ++ t) ∧
      (∃ f, get_header_type_lambda "String" = Except.ok f) ∧
      (∃ f, get_header_type_lambda "Integer" = Except.ok f) ∧
      (∃ f, get_header_type_lambda "Float" = Except.ok f) ∧
      (∃ f, get_header_type_lambda "Flag" = Except.ok f) := by
  intro t h1 h2 h3 h4
  have hlam : get_header_type_lambda t = Except.error ("Unknown VCF header type:" ++ t) := by
    unfold get_header_type_lambda
    rw [if_neg h1, if_neg h2, if_neg h3, if_neg h4]
  refine ⟨hlam, ?_, ?_, ?_, ⟨_, rfl⟩, ⟨_, rfl⟩, ⟨_, rfl⟩, ⟨_, rfl⟩⟩
  · rfl
  · unfold info_field_cells
    simp [get_header_type, hlam, Bind.bind, Except.bind]
  · unfold info_field_cells
    simp [get_header_type, hlam, Bind.bind, Except.bind]

/-- Witness for C8 at the concrete unrecognized type string "Bogus". -/
theorem c8_unknown_type_raises_in_decomposition_witness :
    (("Bogus" : String) ≠ "String" ∧ ("Bogus" : String) ≠ "Integer" ∧
      ("Bogus" : String) ≠ "Float" ∧ ("Bogus" : String) ≠ "Flag") ∧
    (get_header_type_lambda "Bogus" =
        Except.error ("Unknown VCF header type:" ++ "Bogus") ∧
      resolve_key_counts [("X", "1", "Bogus")] ["X"] 1 = Except.ok [("X", some 1)] ∧
      info_field_cells ⟨["s"], [("X", "1", "Bogus")], ["X"], [], [], false⟩ 1 0 c8_rec "X" =
        Except.error ("Unknown VCF header type:" ++ "Bogus") ∧
      info_field_cells ⟨["s"], [("X", "1", "Bogus")], ["X"], [], [], false⟩ 1 0 c8_rec_absent "X" =
        Except.error ("Unknown VCF header type:" ++ "Bogus") ∧
      (∃ f, get_header_type_lambda "String" = Except.ok f) ∧
      (∃ f, get_header_type_lambda "Integer" = Except.ok f) ∧
      (∃ f, get_header_type_lambda "Float" = Except.ok f) ∧
      (∃ f, get_header_type_lambda "Flag" = Except.ok f)) :=
  ⟨⟨by decide, by decide, by decide, by decide⟩,
    c8_unknown_type_raises_in_decomposition "Bogus"
      (by decide) (by decide) (by decide) (by decide)⟩

/-- Helper: the character data of an appended string is the appended
character data. -/
theorem string_data_append (a b : String) : (a ++ b).data = a.data ++ b.data := by
  cases a
  cases b
  rfl

/-- Helper predicate: the key contains an underscore character.  Every
column key emitted by the FILTER, INFO, and FORMAT processing has this
shape, while "chrom" and "alt" do not. -/
abbrev key_has_underscore (key : String) : Prop := '_' ∈ key.data

/-- Helper: appending on the right preserves an underscore on the left. -/
theorem khu_left (a b : String) (h : key_has_underscore a) :
    key_has_underscore (a ++ b) := by
  unfold key_has_underscore at h ⊢
  rw [string_data_append]
  exact List.mem_append_left _ h

/-- Helper: appending on the left preserves an underscore on the right. -/
theorem khu_right (a b : String) (h : key_has_underscore b) :
    key_has_underscore (a ++ b) := by
  unfold key_has_underscore at h ⊢
  rw [string_data_append]
  exact List.mem_append_right _ h

/-- Helper: inversion for a successful bind in the exception monad. -/
theorem except_bind_ok {α β : Type} (x : Except String α) (f : α → Except String β)
    (b : β) (h : x >>= f = .ok b) : ∃ a, x = .ok a ∧ f a = .ok b := by
  cases x with
  | error e => simp [Bind.bind, Except.bind] at h
  | ok a => exact ⟨a, rfl, by simpa [Bind.bind, Except.bind] using h⟩

/-- Helper: inversion for a successful pure in the exception monad. -/
theorem except_pure_ok {α : Type} (a b : α)
    (h : (pure a : Except String α) = .ok b) : a = b := by
  simpa [pure, Except.pure] using h

/-- Helper: every element of a successful `mapE` result comes from applying
the body to some element of the input list. -/
theorem mapE_ok_mem {α β : Type} (f : α → Except String β) :
    ∀ (xs : List α) (ys : List β), mapE f xs = .ok ys →
      ∀ y ∈ ys, ∃ x ∈ xs, f x = .ok y := by
  intro xs
  induction xs with
  | nil =>
    intro ys h y hy
    simp only [mapE] at h
    cases h
    cases hy
  | cons x xs ih =>
    intro ys h y hy
    simp only [mapE] at h
    obtain ⟨y0, hy0, h⟩ := except_bind_ok _ _ _ h
    obtain ⟨ys0, hys0, h⟩ := except_bind_ok _ _ _ h
    have hcons := except_pure_ok _ _ h
    subst hcons
    rcases List.mem_cons.mp hy with rfl | hmem
    · exact ⟨x, List.mem_cons_self x xs, hy0⟩
    · obtain ⟨x', hx', hfx'⟩ := ih ys0 hys0 y hmem
      exact ⟨x', List.mem_cons_of_mem x hx', hfx'⟩

/-- Helper: a key without an underscore matches no entry of a log whose
keys all have underscores. -/
theorem filter_key_nil (key : String) (l : List (String × Cell))
    (hk : ∀ p ∈ l, key_has_underscore p.1) (h : ¬ key_has_underscore key) :
    l.filter (fun p => p.1 = key) = [] := by
  induction l with
  | nil => rfl
  | cons p l ih =>
    have hne : ¬ (p.1 = key) := by
      intro he
      exact h (he ▸ hk p (List.mem_cons_self p l))
    rw [List.filter_cons, if_neg (by simpa using hne)]
    exact ih (fun q hq => hk q (List.mem_cons_of_mem p hq))

/-- Helper: count of a key over a log whose keys all have underscores. -/
theorem count_key_zero_of_khu (key : String) (l : List (String × Cell))
    (hk : ∀ p ∈ l, key_has_underscore p.1) (h : ¬ key_has_underscore key) :
    count_key key l = 0 := by
  unfold count_key
  rw [filter_key_nil key l hk h]
  rfl

/-- Helper: column of a key over a log whose keys all have underscores. -/
theorem col_cells_nil_of_khu (key : String) (l : List (String × Cell))
    (hk : ∀ p ∈ l, key_has_underscore p.1) (h : ¬ key_has_underscore key) :
    col_cells key l = [] := by
  unfold col_cells
  rw [filter_key_nil key l hk h]
  rfl

/-- Helper: key counts add over appended logs. -/
theorem count_key_append (key : String) (l1 l2 : List (String × Cell)) :
    count_key key (l1 ++ l2) = count_key key l1 + count_key key l2 := by
  unfold count_key
  rw [List.filter_append, List.length_append]

/-- Helper: columns concatenate over appended logs. -/
theorem col_cells_append (key : String) (l1 l2 : List (String × Cell)) :
    col_cells key (l1 ++ l2) = col_cells key l1 ++ col_cells key l2 := by
  unfold col_cells
  rw [List.filter_append, List.map_append]

/-- Helper: "chrom" contains no underscore. -/
theorem not_khu_chrom : ¬ key_has_underscore "chrom" := by decide

/-- Helper: "alt" contains no underscore. -/
theorem not_khu_alt : ¬ key_has_underscore "alt" := by decide

/-- Helper: every FILTER column key contains an underscore. -/
theorem filter_cells_khu (fk : List String) (v : VRecord) :
    ∀ p ∈ filter_cells fk v, key_has_underscore p.1 := by
  intro p hp
  unfold filter_cells at hp
  rcases List.mem_map.mp hp with ⟨fc, _, rfl⟩
  exact khu_left "FILTER_" fc (by decide)

/-- Helper: every key emitted by the GT handling contains an underscore. -/
theorem gt_cells_khu (cfg : VCFConfig) (v : VRecord) (alt_idx sample_idx : Nat)
    (sample_name : String) (l : List (String × Cell))
    (h : gt_cells cfg v alt_idx sample_idx sample_name = .ok l) :
    ∀ p ∈ l, key_has_underscore p.1 := by
  unfold gt_cells at h
  obtain ⟨gt, hgt, h⟩ := except_bind_ok _ _ _ h
  have hl := except_pure_ok _ _ h
  subst hl
  intro p hp
  rcases List.mem_cons.mp hp with rfl | hp
  · exact khu_right sample_name "_zyg" (by decide)
  · rcases List.mem_cons.mp hp with rfl | hp
    · exact khu_right sample_name "_GT" (by decide)
    · cases hp

/-- Helper: the INFO column key contains an underscore. -/
theorem info_df_key_khu (info_col : String) : key_has_underscore (info_df_key info_col) :=
  khu_left "INFO_" info_col (by decide)

/-- Helper: the FORMAT column key contains an underscore. -/
theorem fmt_df_key_khu (sample_name format_col : String) :
    key_has_underscore (fmt_df_key sample_name format_col) :=
  khu_left (sample_name ++ "_") format_col (khu_right sample_name "_" (by decide))

/-- Helper: every key emitted by the INFO-column processing contains an
underscore. -/
theorem info_field_cells_khu (cfg : VCFConfig) (num_alts alt_idx : Nat)
    (v : VRecord) (info_col : String) (l : List (String × Cell))
    (h : info_field_cells cfg num_alts alt_idx v info_col = .ok l) :
    ∀ p ∈ l, key_has_underscore p.1 := by
  unfold info_field_cells at h
  obtain ⟨ht, _, h⟩ := except_bind_ok _ _ _ h
  obtain ⟨conv, _, h⟩ := except_bind_ok _ _ _ h
  obtain ⟨val, _, h⟩ := except_bind_ok _ _ _ h
  by_cases hA : ht.1 = "A"
  · rw [if_pos hA] at h
    obtain ⟨x, _, h⟩ := except_bind_ok _ _ _ h
    have hl := except_pure_ok _ _ h
    subst hl
    intro p hp
    rcases List.mem_cons.mp hp with rfl | hp
    · exact info_df_key_khu info_col
    · cases hp
  rw [if_neg hA] at h
  by_cases hR : ht.1 = "R"
  · rw [if_pos hR] at h
    obtain ⟨x0, _, h⟩ := except_bind_ok _ _ _ h
    obtain ⟨c0, _, h⟩ := except_bind_ok _ _ _ h
    obtain ⟨x1, _, h⟩ := except_bind_ok _ _ _ h
    obtain ⟨c1, _, h⟩ := except_bind_ok _ _ _ h
    have hl := except_pure_ok _ _ h
    subst hl
    intro p hp
    rcases List.mem_cons.mp hp with rfl | hp
    · exact khu_left _ _ (info_df_key_khu info_col)
    rcases List.mem_cons.mp hp with rfl | hp
    · exact khu_left _ _ (info_df_key_khu info_col)
    · cases hp
  rw [if_neg hR] at h
  by_cases hD : isDigitStr ht.1 = true
  · rw [if_pos hD] at h
    by_cases h1 : strToNat ht.1 = 1
    · rw [if_pos h1] at h
      obtain ⟨x, _, h⟩ := except_bind_ok _ _ _ h
      obtain ⟨c, _, h⟩ := except_bind_ok _ _ _ h
      have hl := except_pure_ok _ _ h
      subst hl
      intro p hp
      rcases List.mem_cons.mp hp with rfl | hp
      · exact info_df_key_khu info_col
      · cases hp
    · rw [if_neg h1] at h
      intro p hp
      obtain ⟨i, _, hi⟩ := mapE_ok_mem _ _ _ h p hp
      obtain ⟨x, _, hi⟩ := except_bind_ok _ _ _ hi
      obtain ⟨c, _, hi⟩ := except_bind_ok _ _ _ hi
      have hp2 := except_pure_ok _ _ hi
      rw [← hp2]
      exact khu_left _ _ (khu_left _ _ (info_df_key_khu info_col))
  rw [if_neg hD] at h
  by_cases hDot : ht.1 = "."
  · rw [if_pos hDot] at h
    have hl := except_pure_ok _ _ h
    subst hl
    intro p hp
    rcases List.mem_cons.mp hp with rfl | hp
    · exact info_df_key_khu info_col
    · cases hp
  · rw [if_neg hDot] at h
    have hl := except_pure_ok _ _ h
    subst hl
    intro p hp
    cases hp

/-- Helper: every key emitted by the non-GT FORMAT-column processing
contains an underscore. -/
theorem fmt_field_cells_khu (cfg : VCFConfig) (num_alts alt_idx : Nat)
    (v : VRecord) (format_col : String) (sample_idx : Nat) (sample_name : String)
    (l : List (String × Cell))
    (h : fmt_field_cells cfg num_alts alt_idx v format_col sample_idx sample_name = .ok l) :
    ∀ p ∈ l, key_has_underscore p.1 := by
  unfold fmt_field_cells at h
  obtain ⟨ht, _, h⟩ := except_bind_ok _ _ _ h
  obtain ⟨conv, _, h⟩ := except_bind_ok _ _ _ h
  obtain ⟨val, _, h⟩ := except_bind_ok _ _ _ h
  by_cases hA : ht.1 = "A"
  · rw [if_pos hA] at h
    obtain ⟨x, _, h⟩ := except_bind_ok _ _ _ h
    obtain ⟨c, _, h⟩ := except_bind_ok _ _ _ h
    have hl := except_pure_ok _ _ h
    subst hl
    intro p hp
    rcases List.mem_cons.mp hp with rfl | hp
    · exact fmt_df_key_khu sample_name format_col
    · cases hp
  rw [if_neg hA] at h
  by_cases hR : ht.1 = "R"
  · rw [if_pos hR] at h
    obtain ⟨x0, _, h⟩ := except_bind_ok _ _ _ h
    obtain ⟨c0, _, h⟩ := except_bind_ok _ _ _ h
    obtain ⟨x1, _, h⟩ := except_bind_ok _ _ _ h
    obtain ⟨c1, _, h⟩ := except_bind_ok _ _ _ h
    have hl := except_pure_ok _ _ h
    subst hl
    intro p hp
    rcases List.mem_cons.mp hp with rfl | hp
    · exact khu_left _ _ (fmt_df_key_khu sample_name format_col)
    rcases List.mem_cons.mp hp with rfl | hp
    · exact khu_left _ _ (fmt_df_key_khu sample_name format_col)
    · cases hp
  rw [if_neg hR] at h
  by_cases hD : isDigitStr ht.1 = true
  · rw [if_pos hD] at h
    by_cases h1 : strToNat ht.1 = 1
    · rw [if_pos h1] at h
      obtain ⟨x, _, h⟩ := except_bind_ok _ _ _ h
      obtain ⟨c, _, h⟩ := except_bind_ok _ _ _ h
      have hl := except_pure_ok _ _ h
      subst hl
      intro p hp
      rcases List.mem_cons.mp hp with rfl | hp
      · exact fmt_df_key_khu sample_name format_col
      · cases hp
    · rw [if_neg h1] at h
      intro p hp
      obtain ⟨i, _, hi⟩ := mapE_ok_mem _ _ _ h p hp
      obtain ⟨x, _, hi⟩ := except_bind_ok _ _ _ hi
      obtain ⟨c, _, hi⟩ := except_bind_ok _ _ _ hi
      have hp2 := except_pure_ok _ _ hi
      rw [← hp2]
      exact khu_left _ _ (khu_left _ _ (fmt_df_key_khu sample_name format_col))
  rw [if_neg hD] at h
  by_cases hDot : ht.1 = "."
  · rw [if_pos hDot] at h
    have hl := except_pure_ok _ _ h
    subst hl
    intro p hp
    rcases List.mem_cons.mp hp with rfl | hp
    · exact fmt_df_key_khu sample_name format_col
    · cases hp
  · rw [if_neg hDot] at h
    have hl := except_pure_ok _ _ h
    subst hl
    intro p hp
    cases hp

/-- Helper: the standard columns log exactly one "chrom" append per row. -/
theorem std_cells_chrom (v : VRecord) (alt : String) :
    count_key "chrom" (std_cells v alt) = 1 := by
  simp [std_cells, count_key]

/-- Helper: the standard columns log exactly the decomposed alt under
"alt". -/
theorem std_cells_alt (v : VRecord) (alt : String) :
    col_cells "alt" (std_cells v alt) = [some (PyVal.vstr alt)] := by
  simp [std_cells, col_cells]

/-- Helper: one decomposed row logs one "chrom" append and its own alt
under "alt". -/
theorem alt_cells_row (cfg : VCFConfig) (v : VRecord) (n i : Nat) (alt : String)
    (l : List (String × Cell)) (h : alt_cells cfg v n i alt = .ok l) :
    count_key "chrom" l = 1 ∧ col_cells "alt" l = [some (PyVal.vstr alt)] := by
  unfold alt_cells at h
  obtain ⟨ips, hips, h⟩ := except_bind_ok _ _ _ h
  obtain ⟨fps, hfps, h⟩ := except_bind_ok _ _ _ h
  have hl := except_pure_ok _ _ h
  subst hl
  have hfilter : ∀ p ∈ filter_cells cfg.filter_keys v, key_has_underscore p.1 :=
    filter_cells_khu cfg.filter_keys v
  have hinfo : ∀ p ∈ ips.flatten, key_has_underscore p.1 := by
    intro p hp
    obtain ⟨lp, hlp, hpin⟩ := List.mem_flatten.mp hp
    obtain ⟨k, _, hk⟩ := mapE_ok_mem _ _ _ hips lp hlp
    exact info_field_cells_khu cfg n i v k lp hk p hpin
  have hfmt : ∀ p ∈ (fps.map List.flatten).flatten, key_has_underscore p.1 := by
    intro p hp
    obtain ⟨q, hq, hpin⟩ := List.mem_flatten.mp hp
    obtain ⟨inner, hinner, rfl⟩ := List.mem_map.mp hq
    obtain ⟨lp, hlp, hpin2⟩ := List.mem_flatten.mp hpin
    obtain ⟨fc, _, hfc⟩ := mapE_ok_mem _ _ _ hfps inner hinner
    obtain ⟨si, _, hsi⟩ := mapE_ok_mem _ _ _ hfc lp hlp
    by_cases hgt : fc = "GT"
    · rw [if_pos hgt] at hsi
      exact gt_cells_khu cfg v i si.1 si.2 lp hsi p hpin2
    · rw [if_neg hgt] at hsi
      exact fmt_field_cells_khu cfg n i v fc si.1 si.2 lp hsi p hpin2
  constructor
  · rw [count_key_append, count_key_append, count_key_append,
      std_cells_chrom, count_key_zero_of_khu _ _ hfilter not_khu_chrom,
      count_key_zero_of_khu _ _ hinfo not_khu_chrom,
      count_key_zero_of_khu _ _ hfmt not_khu_chrom]
  · rw [col_cells_append, col_cells_append, col_cells_append,
      std_cells_alt, col_cells_nil_of_khu _ _ hfilter not_khu_alt,
      col_cells_nil_of_khu _ _ hinfo not_khu_alt,
      col_cells_nil_of_khu _ _ hfmt not_khu_alt]
    simp

/-- Helper: `enumFromN` preserves length. -/
theorem enumFromN_length {α : Type} (xs : List α) :
    ∀ i : Nat, (enumFromN i xs).length = xs.length := by
  induction xs with
  | nil => intro i; rfl
  | cons x xs ih => intro i; simp [enumFromN, ih]

/-- Helper: mapping a function of the payload over `enumFromN` forgets the
indices. -/
theorem enumFromN_map_snd {α β : Type} (g : α → β) (xs : List α) :
    ∀ i : Nat, (enumFromN i xs).map (fun ia => g ia.2) = xs.map g := by
  induction xs with
  | nil => intro i; rfl
  | cons x xs ih => intro i; simp [enumFromN, ih]

/-- Helper: the alt loop of one record produces one "chrom" append per
enumerated alt and the alts in order under "alt". -/
theorem mapE_alt_rows (cfg : VCFConfig) (v : VRecord) :
    ∀ (es : List (Nat × String)) (parts : List (List (String × Cell))),
      mapE (fun ia => alt_cells cfg v v.alt.length ia.1 ia.2) es = .ok parts →
      count_key "chrom" parts.flatten = es.length ∧
      col_cells "alt" parts.flatten = es.map (fun ia => some (PyVal.vstr ia.2)) := by
  intro es
  induction es with
  | nil =>
    intro parts h
    simp only [mapE] at h
    cases h
    exact ⟨rfl, rfl⟩
  | cons ia es ih =>
    intro parts h
    simp only [mapE] at h
    obtain ⟨l, hl, h⟩ := except_bind_ok _ _ _ h
    obtain ⟨rest, hrest, h⟩ := except_bind_ok _ _ _ h
    have hp := except_pure_ok _ _ h
    subst hp
    obtain ⟨hc, ha⟩ := alt_cells_row cfg v v.alt.length ia.1 ia.2 l hl
    obtain ⟨ihc, iha⟩ := ih rest hrest
    constructor
    · rw [List.flatten_cons, count_key_append, hc, ihc, List.length_cons]
      omega
    · rw [List.flatten_cons, col_cells_append, ha, iha, List.map_cons]
      rfl

/-- Helper: one record contributes exactly one row per alternate allele,
in alternate-allele order. -/
theorem process_variant_rows (cfg : VCFConfig) (v : VRecord)
    (l : List (String × Cell)) (h : process_variant cfg v = .ok l) :
    count_key "chrom" l = v.alt.length ∧
    col_cells "alt" l = v.alt.map (fun a => (some (PyVal.vstr a) : Cell)) := by
  unfold process_variant at h
  obtain ⟨parts, hparts, h⟩ := except_bind_ok _ _ _ h
  have hp := except_pure_ok _ _ h
  subst hp
  obtain ⟨hc, ha⟩ := mapE_alt_rows cfg v (enumFromN 0 v.alt) parts hparts
  constructor
  · rw [hc]
    exact enumFromN_length v.alt 0
  · rw [ha]
    exact enumFromN_map_snd (fun a => (some (PyVal.vstr a) : Cell)) v.alt 0

/-- Helper: the variant loop sums the per-record alt counts and
concatenates the per-record alt columns. -/
theorem mapE_variant_rows (cfg : VCFConfig) :
    ∀ (vs : List VRecord) (parts : List (List (String × Cell))),
      mapE (process_variant cfg) vs = .ok parts →
      count_key "chrom" parts.flatten = (vs.map (fun v => v.alt.length)).sum ∧
      col_cells "alt" parts.flatten =
        (vs.map (fun v => v.alt.map (fun a => (some (PyVal.vstr a) : Cell)))).flatten := by
  intro vs
  induction vs with
  | nil =>
    intro parts h
    simp only [mapE] at h
    cases h
    exact ⟨rfl, rfl⟩
  | cons v vs ih =>
    intro parts h
    simp only [mapE] at h
    obtain ⟨l, hl, h⟩ := except_bind_ok _ _ _ h
    obtain ⟨rest, hrest, h⟩ := except_bind_ok _ _ _ h
    have hp := except_pure_ok _ _ h
    subst hp
    obtain ⟨hc, ha⟩ := process_variant_rows cfg v l hl
    obtain ⟨ihc, iha⟩ := ih rest hrest
    constructor
    · rw [List.flatten_cons, count_key_append, hc, ihc, List.map_cons, List.sum_cons]
    · rw [List.flatten_cons, col_cells_append, ha, iha, List.map_cons, List.flatten_cons]

/-- C3: for any configuration and any list of input records, a successful
decomposition logs exactly one row (one "chrom" append) per (record,
alternate allele) pair - so the row total is the sum of the per-record alt
counts - and the "alt" column lists each record's alternate alleles in
order. -/
theorem c3_row_count :
    ∀ (cfg : VCFConfig) (variant_list : List VRecord) (log : List (String × Cell)),
      create_df cfg variant_list = .ok log →
      count_key "chrom" log = (variant_list.map (fun v => v.alt.length)).sum ∧
      col_cells "alt" log =
        (variant_list.map (fun v => v.alt.map (fun a => (some (PyVal.vstr a) : Cell)))).flatten := by
  intro cfg vs log h
  unfold create_df at h
  obtain ⟨parts, hparts, h⟩ := except_bind_ok _ _ _ h
  have hp := except_pure_ok _ _ h
  subst hp
  exact mapE_variant_rows cfg vs parts hparts

/-- Config for the C3 witness: one sample, no requested keys. -/
def c3_cfg : VCFConfig := ⟨["s"], [], [], [], [], false⟩

/-- Record for the C3 witness: a locus with two alternate alleles. -/
def c3_rec : VRecord :=
  ⟨"1", 100, 101, none, "A", ["T", "TG"], none, none, [], [(0, 1)], []⟩

/-- Append log produced by decomposing `c3_rec` under `c3_cfg`: two rows. -/
def c3_log : List (String × Cell) :=
  [("chrom", some (.vstr "1")), ("start_pos", some (.vint 100)),
   ("end_pos", some (.vint 101)), ("id", none), ("ref", some (.vstr "A")),
   ("alt", some (.vstr "T")), ("variant_type", some (.vint 0)), ("quality", none),
   ("chrom", some (.vstr "1")), ("start_pos", some (.vint 100)),
   ("end_pos", some (.vint 101)), ("id", none), ("ref", some (.vstr "A")),
   ("alt", some (.vstr "TG")), ("variant_type", some (.vint 1)), ("quality", none)]

/-- Witness for C3 at a concrete two-alt record. -/
theorem c3_row_count_witness :
    create_df c3_cfg [c3_rec] = Except.ok c3_log ∧
    (count_key "chrom" c3_log = ([c3_rec].map (fun v => v.alt.length)).sum ∧
      col_cells "alt" c3_log =
        ([c3_rec].map (fun v => v.alt.map (fun a => (some (PyVal.vstr a) : Cell)))).flatten) :=
  ⟨rfl, c3_row_count c3_cfg [c3_rec] c3_log rfl⟩
